import Mathlib

/-!
Verification of the git-auto-commit daemon (src/index.js) against its
natural-language specification.

The daemon is single-threaded (Node.js): chokidar change callbacks, the
debounce-timer callback (batchedCommit) and the periodic pull tick
(maybePull) are macrotasks that run atomically up to their first await.
We embed the coordinator as a labelled transition system whose atomic
steps are exactly those synchronous blocks, and the bodies of the two
async cycles (batchedCommit, pullUpdates) as pure functions of an oracle
describing the outcome of each git command.

Source mapping (src/index.js):
  - StateManager.currentState    -> DaemonState.sync (a String, as in JS)
  - batchTimer (global variable) -> DaemonState.batchTimer (timeout id)
  - armed Node timers            -> DaemonState.armed ((id, deadline) list);
    setTimeout arms one, clearTimeout cancels by id, firing consumes it
  - an invocation of batchedCommit past its first await -> commitsInFlight
  - an invocation of pullUpdates past its first await   -> pullsInFlight
-/

namespace GitAutoCommit

/-- Source line 13: BATCH_INTERVAL_MS = 1 * 60 * 1000. -/
def BATCH_INTERVAL_MS : Nat := 1 * 60 * 1000

/-- Source line 14: PULL_INTERVAL_MS = 1 * 60 * 1000. -/
def PULL_INTERVAL_MS : Nat := 1 * 60 * 1000

/-- The coordinator state visible to the daemon.  `sync` is the string
stored in StateManager.currentState (the source uses plain JS strings:
"initializing", "idle", "pending", "committing", "pulling", "blocked",
"error").  `batchTimer` is the global batchTimer variable (the id of the
timeout it references, or none for null).  `armed` is the set of armed
Node timeouts, as (id, absolute fire deadline) pairs; a timeout survives
in `armed` even when the batchTimer variable stops referencing it,
because assigning null to the variable does not cancel the timeout.
`nextId` is a fresh-id counter for setTimeout.  `commitsInFlight` and
`pullsInFlight` count invocations of batchedCommit / pullUpdates that are
suspended at an await and have not yet run their completion block. -/
structure DaemonState where
  sync : String
  batchTimer : Option Nat
  armed : List (Nat × Nat)
  nextId : Nat
  commitsInFlight : Nat
  pullsInFlight : Nat
deriving DecidableEq

/-- The state at module load: the StateManager constructor (source lines
35-43) sets currentState = "initializing"; batchTimer = null (line 20);
no timers armed, nothing in flight. -/
def initialState : DaemonState :=
  { sync := "initializing", batchTimer := none, armed := [], nextId := 0,
    commitsInFlight := 0, pullsInFlight := 0 }

/-- Source lines 58-63, setState: assigns currentState (the log line and
the no-change guard do not affect the stored value). -/
def setState (newState : String) (st : DaemonState) : DaemonState :=
  { st with sync := newState }

/-- Source lines 65-72, processDone: if the batchTimer variable is
(truthy) non-null, set state "pending", otherwise "idle". -/
def processDone (st : DaemonState) : DaemonState :=
  match st.batchTimer with
  | some _ => setState "pending" st
  | none => setState "idle" st

/-- Source lines 97-100 of onChange: `if (batchTimer) clearTimeout(batchTimer)`.
clearTimeout cancels the armed timeout with that id; on an id that
already fired (or was already cleared) it is a no-op, which the filter
models since a fired id is no longer in `armed`. -/
def clearBatchTimer (st : DaemonState) : List (Nat × Nat) :=
  match st.batchTimer with
  | some i => st.armed.filter (fun p => p.1 != i)
  | none => st.armed

/-- Source lines 94-104, onChange(event, filePath), the coordinator's
change-event handler, arriving at absolute time `t`:
setState("pending"); clearTimeout(batchTimer) if set; batchTimer =
setTimeout(batchedCommit, BATCH_INTERVAL_MS), i.e. arm a fresh timeout
with deadline t + BATCH_INTERVAL_MS. -/
def onChange (t : Nat) (st : DaemonState) : DaemonState :=
  let st1 := setState "pending" st
  { st1 with
    batchTimer := some st.nextId,
    armed := (st.nextId, t + BATCH_INTERVAL_MS) :: clearBatchTimer st,
    nextId := st.nextId + 1 }

/-- Source lines 74-91, maybePull, the synchronous body of the periodic
pull tick: only when currentState === "idle" it sets state "pulling" and
invokes pullUpdates() (which suspends at its first await: one more pull
in flight); in every other state it only logs a skip line. -/
def maybePull (st : DaemonState) : DaemonState :=
  if st.sync = "idle" then
    { setState "pulling" st with pullsInFlight := st.pullsInFlight + 1 }
  else st

/-- Source lines 272-281: the synchronous prefix of batchedCommit that
runs when the armed timeout `i` fires: the Node runtime consumes the
timeout, then batchedCommit logs and calls setState("committing") before
suspending at its first await (one more commit cycle in flight). -/
def fireBatchTimer (i : Nat) (st : DaemonState) : DaemonState :=
  { setState "committing" st with
    armed := st.armed.filter (fun p => p.1 != i),
    commitsInFlight := st.commitsInFlight + 1 }

/-- Outcome of the git commands batchedCommit issues against one
submodule working tree (source lines 292-338): fs.existsSync(subPath),
subGit.status().files.length, (subGit.branchLocal()).current (none for a
detached HEAD, whose falsy current simple-git reports), and whether
commit / checkout('main') / push('origin','main') succeed. -/
structure SubOutcome where
  pathExists : Bool
  statusFiles : Nat
  currentBranch : Option String
  commitOk : Bool
  checkoutOk : Bool
  pushOk : Bool
deriving DecidableEq

/-- What the per-submodule loop body of batchedCommit did for one
submodule. -/
inductive SubAction where
  | skippedMissing
  | noChanges
  | commitFailed
  | checkoutFailed
  | pushed
  | pushFailed
deriving DecidableEq

/-- Source lines 292-338, one iteration of batchedCommit's submodule
loop: skip if the path is missing; skip if status reports no files;
add + commit (a commit failure logs a warning and `continue`s); if the
current branch is not 'main', attempt checkout('main') (a failure logs
and `continue`s, skipping the push); push (a failure is only logged). -/
def processSub (o : SubOutcome) : SubAction :=
  if o.pathExists = false then SubAction.skippedMissing
  else if o.statusFiles = 0 then SubAction.noChanges
  else if o.commitOk = false then SubAction.commitFailed
  else if o.currentBranch ≠ some "main" ∧ o.checkoutOk = false then SubAction.checkoutFailed
  else if o.pushOk then SubAction.pushed
  else SubAction.pushFailed

/-- Source lines 292-338, the whole submodule loop: each iteration acts
on its own submodule only (the loop body keeps no cross-iteration state,
and every failure path inside it is `continue`, never an abort). -/
def commitSubmodules : List SubOutcome → List SubAction
  | [] => []
  | o :: rest => processSub o :: commitSubmodules rest

/-- Outcome of the git commands batchedCommit issues against the
superproject (source lines 342-376): git.status() file and submodule
entry counts, whether git.commit succeeds, (git.branchLocal()).current
(none = detached HEAD, falsy in the `if (branch)` test), and whether the
push succeeds. -/
structure SuperOutcome where
  statusFiles : Nat
  statusSubmodules : Nat
  commitOk : Bool
  currentBranch : Option String
  pushOk : Bool
deriving DecidableEq

/-- What the superproject part of batchedCommit did. -/
inductive SuperAction where
  | noChanges
  | commitFailed
  | pushed (branch : String)
  | pushFailed (branch : String)
  | detachedSkip
deriving DecidableEq

/-- Source lines 341-379, the superproject step of batchedCommit,
returning what it did and whether control reaches the finalize block
(lines 381-383).  hasChanges is files.length > 0 or submodules.length >
0; on a commit failure the source does `return` (line 363), so the
finalize block is NOT reached on that path; every other path falls
through to it. -/
def superStep (sup : SuperOutcome) : SuperAction × Bool :=
  if 0 < sup.statusFiles ∨ 0 < sup.statusSubmodules then
    if sup.commitOk = false then (SuperAction.commitFailed, false)
    else
      match sup.currentBranch with
      | some b => if sup.pushOk then (SuperAction.pushed b, true) else (SuperAction.pushFailed b, true)
      | none => (SuperAction.detachedSkip, true)
  else (SuperAction.noChanges, true)

/-- The observable result of one batchedCommit body (lines 272-384):
the action taken for each enumerated submodule in order, the action
taken for the superproject, and whether the finalize block ran. -/
structure CycleResult where
  subActions : List SubAction
  superAction : SuperAction
  finalized : Bool
deriving DecidableEq

/-- Source lines 272-384: the full batchedCommit body over the oracle of
git outcomes for the enumerated submodule list and the superproject. -/
def runBatchedCommit (subs : List SubOutcome) (sup : SuperOutcome) : CycleResult :=
  { subActions := commitSubmodules subs
    superAction := (superStep sup).1
    finalized := (superStep sup).2 }

/-- Source lines 381-383, the finalize block of batchedCommit:
`batchTimer = null; stateManager.processDone();` executed in that order
(so processDone reads the already-nulled variable).  On the early-return
path (superproject commit failure) this block is skipped and the state
is left untouched. -/
def commitCycleDone (sup : SuperOutcome) (st : DaemonState) : DaemonState :=
  if (superStep sup).2 then processDone { st with batchTimer := none }
  else st

/-- Outcome of the git commands pullUpdates issues for one registered
submodule (source lines 395-408): its current branch and whether
pull('origin','main') succeeds. -/
structure SubPull where
  currentBranch : Option String
  pullOk : Bool
deriving DecidableEq

/-- One log line of pullUpdates, the only observable effect of its git
handling besides the final processDone. -/
inductive PullLog where
  | superPulled
  | superPullFailed
  | subSkippedNotMain
  | subPulled
  | subPullFailed
deriving DecidableEq

/-- Source lines 395-408, the submodule loop of pullUpdates: skip a
submodule not on 'main'; otherwise pull, and catch a pull failure with a
warning (the loop always continues). -/
def pullSubLoop : List SubPull → List PullLog
  | [] => []
  | s :: rest =>
    (if s.currentBranch ≠ some "main" then PullLog.subSkippedNotMain
     else if s.pullOk then PullLog.subPulled
     else PullLog.subPullFailed) :: pullSubLoop rest

/-- Outcome of the git commands pullUpdates issues: whether the
superproject pull('origin','main') succeeds, and the per-submodule
outcomes. -/
structure PullOutcome where
  superPullOk : Bool
  subs : List SubPull
deriving DecidableEq

/-- Source lines 386-411, the body of pullUpdates as the promise the
caller awaits: the superproject pull sits in try/catch (lines 389-394, a
failure only logs a warning), every submodule failure is caught inside
the loop, and nothing after the catches can throw, so the function
always resolves: the result is Except.ok with the log it produced.  (The
final `stateManager.processDone()` is part of the caller-side completion
step, pullSettled below.) -/
def runPullUpdates (o : PullOutcome) : Except String (List PullLog) :=
  Except.ok
    ((if o.superPullOk then PullLog.superPulled else PullLog.superPullFailed)
      :: pullSubLoop o.subs)

/-- Source lines 79-87 and 410: the completion of a pull started by
maybePull.  pullUpdates runs its final processDone (line 410), resolves,
and the `.then` handler sets state "idle" (line 82) in the same
microtask drain; had the promise rejected, the `.catch` handler would
set state "error" (line 86) without processDone having run. -/
def pullSettled (o : PullOutcome) (st : DaemonState) : DaemonState :=
  match runPullUpdates o with
  | Except.ok _ => setState "idle" (processDone st)
  | Except.error _ => setState "error" st

/-- The atomic scheduler steps of the daemon: init() finishing (line
46), a chokidar change event at absolute time t, an armed batch timeout
with id i expiring, a periodic pull tick (line 424), an in-flight
batchedCommit reaching its end with superproject outcome sup, and an
in-flight pullUpdates settling with outcome o. -/
inductive Ev where
  | initDone
  | change (t : Nat)
  | timerFire (i : Nat)
  | pullTick
  | commitFinish (sup : SuperOutcome)
  | pullFinish (o : PullOutcome)

/-- One atomic step of the daemon: none when the event cannot occur in
`st` (change events and ticks are only subscribed after init, source
lines 419-424; a timeout only fires while armed; a cycle only finishes
while in flight). -/
def stepEv (st : DaemonState) : Ev → Option DaemonState
  | Ev.initDone =>
    if st.sync = "initializing" then some (setState "idle" st) else none
  | Ev.change t =>
    if st.sync = "initializing" then none else some (onChange t st)
  | Ev.timerFire i =>
    if st.armed.any (fun p => p.1 == i) then some (fireBatchTimer i st) else none
  | Ev.pullTick =>
    if st.sync = "initializing" then none else some (maybePull st)
  | Ev.commitFinish sup =>
    if st.commitsInFlight = 0 then none
    else some (commitCycleDone sup { st with commitsInFlight := st.commitsInFlight - 1 })
  | Ev.pullFinish o =>
    if st.pullsInFlight = 0 then none
    else some (pullSettled o { st with pullsInFlight := st.pullsInFlight - 1 })

/-- Runs a list of events from a given state, stuck (none) as soon as an
event cannot occur. -/
def runFrom (st : DaemonState) : List Ev → Option DaemonState
  | [] => some st
  | e :: evs =>
    match stepEv st e with
    | some st2 => runFrom st2 evs
    | none => none

/-- Runs a list of events from the module-load state; the reachable
daemon states are exactly the defined results of `run`. -/
def run (evs : List Ev) : Option DaemonState :=
  runFrom initialState evs

/-- The strings the daemon code ever stores in currentState: the
constructor value and the five values setState is called with (lines 36,
46, 68, 70, 78, 82, 86, 95, 274).  "blocked" is declared in the comment
block (line 41) but no call site assigns it. -/
def StateOk (x : String) : Prop :=
  x = "initializing" ∨ x = "idle" ∨ x = "pending" ∨ x = "committing" ∨
    x = "pulling" ∨ x = "error"

/-- Interleaving in which a change event arrives during an in-flight
pull and the armed batch timeout then expires before the pull completes
(the pull outlasting BATCH_INTERVAL_MS). -/
def overlapTrace : List Ev :=
  [Ev.initDone, Ev.pullTick, Ev.change 0, Ev.timerFire 0]

/-- The daemon state overlapTrace reaches: a commit cycle and a pull
simultaneously in flight. -/
def overlapState : DaemonState :=
  { sync := "committing", batchTimer := some 0, armed := [], nextId := 1,
    commitsInFlight := 1, pullsInFlight := 1 }

/-- A superproject outcome whose git commit fails while changes exist
(batchedCommit's early-return path, source line 363). -/
def superCommitFailure : SuperOutcome :=
  { statusFiles := 1, statusSubmodules := 0, commitOk := false,
    currentBranch := some "main", pushOk := true }

/-- A superproject outcome with changes whose commit and push succeed. -/
def superAllOk : SuperOutcome :=
  { statusFiles := 1, statusSubmodules := 0, commitOk := true,
    currentBranch := some "main", pushOk := true }

/-- A superproject outcome with no changes at all. -/
def superNoChanges : SuperOutcome :=
  { statusFiles := 0, statusSubmodules := 0, commitOk := true,
    currentBranch := some "main", pushOk := true }

/-- A commit cycle whose superproject commit fails. -/
def stuckTrace : List Ev :=
  [Ev.initDone, Ev.change 0, Ev.timerFire 0, Ev.commitFinish superCommitFailure]

/-- The daemon state stuckTrace reaches: the cycle has ended but the
finalize block never ran. -/
def stuckState : DaemonState :=
  { sync := "committing", batchTimer := some 0, armed := [], nextId := 1,
    commitsInFlight := 0, pullsInFlight := 0 }

/-- A commit cycle during which a fresh change event arrives (at
t = 70000, mid-cycle) and whose git operations all succeed. -/
def midCycleChangeTrace : List Ev :=
  [Ev.initDone, Ev.change 0, Ev.timerFire 0, Ev.change 70000,
   Ev.commitFinish superAllOk]

/-- The daemon state midCycleChangeTrace reaches: "idle" even though a
change arrived mid-cycle, with the mid-cycle timeout still armed but no
longer referenced by the batchTimer variable. -/
def midCycleChangeEnd : DaemonState :=
  { sync := "idle", batchTimer := none, armed := [(1, 130000)], nextId := 2,
    commitsInFlight := 0, pullsInFlight := 0 }

/-- A pull outcome in which the superproject pull fails (no submodules). -/
def superPullFailure : PullOutcome := { superPullOk := false, subs := [] }

/-- A pull outcome in which everything succeeds (no submodules). -/
def pullAllOk : PullOutcome := { superPullOk := true, subs := [] }

/-- Pull tick from idle, superproject pull fails, cycle completes. -/
def pullFailTrace : List Ev :=
  [Ev.initDone, Ev.pullTick, Ev.pullFinish superPullFailure]

/-- The daemon state pullFailTrace reaches. -/
def pullFailEnd : DaemonState :=
  { sync := "idle", batchTimer := none, armed := [], nextId := 0,
    commitsInFlight := 0, pullsInFlight := 0 }

/-- Pull tick from idle, a change event arrives during the pull, then
the pull completes successfully. -/
def pullRaceTrace : List Ev :=
  [Ev.initDone, Ev.pullTick, Ev.change 0, Ev.pullFinish pullAllOk]

/-- The daemon state pullRaceTrace reaches: "idle", with the change's
batch timeout still armed and referenced. -/
def pullRaceEnd : DaemonState :=
  { sync := "idle", batchTimer := some 0, armed := [(0, BATCH_INTERVAL_MS)],
    nextId := 1, commitsInFlight := 0, pullsInFlight := 0 }

/-- A quiescent daemon state sitting in the "error" state. -/
def errorProbe : DaemonState :=
  { sync := "error", batchTimer := none, armed := [], nextId := 0,
    commitsInFlight := 0, pullsInFlight := 0 }

/-- A quiescent daemon state sitting in the "pending" state. -/
def pendingProbe : DaemonState :=
  { sync := "pending", batchTimer := some 0, armed := [(0, BATCH_INTERVAL_MS)],
    nextId := 1, commitsInFlight := 0, pullsInFlight := 0 }

/-- A daemon state with one pull in flight. -/
def pullingProbe : DaemonState :=
  { sync := "pulling", batchTimer := none, armed := [], nextId := 0,
    commitsInFlight := 0, pullsInFlight := 1 }

/-- The commit path out of the "error" state: a change event, the
timeout expiring, the cycle completing with nothing to commit, and the
next pull tick. -/
def recoveryTrace : List Ev :=
  [Ev.change 0, Ev.timerFire 0, Ev.commitFinish superNoChanges, Ev.pullTick]

/-- A submodule with local edits whose commit fails. -/
def badSub : SubOutcome :=
  { pathExists := true, statusFiles := 2, currentBranch := some "main",
    commitOk := false, checkoutOk := true, pushOk := true }

/-- A submodule with local edits whose commit, checkout and push all
succeed. -/
def goodSub : SubOutcome :=
  { pathExists := true, statusFiles := 1, currentBranch := some "main",
    commitOk := true, checkoutOk := true, pushOk := true }

/-- Every atomic step stores one of the strings of StateOk: each
assignment in the source writes one of those literals, and every other
step leaves currentState untouched. -/
theorem stepEv_stateOk {st st' : DaemonState} {e : Ev}
    (h : stepEv st e = some st') (hok : StateOk st.sync) : StateOk st'.sync := by
  cases e with
  | initDone =>
    simp only [stepEv] at h
    split at h
    · cases h
      exact Or.inr (Or.inl rfl)
    · cases h
  | change t =>
    simp only [stepEv] at h
    split at h
    · cases h
    · cases h
      exact Or.inr (Or.inr (Or.inl rfl))
  | timerFire i =>
    simp only [stepEv] at h
    split at h
    · cases h
      exact Or.inr (Or.inr (Or.inr (Or.inl rfl)))
    · cases h
  | pullTick =>
    simp only [stepEv] at h
    split at h
    · cases h
    · cases h
      unfold maybePull
      split
      · exact Or.inr (Or.inr (Or.inr (Or.inr (Or.inl rfl))))
      · exact hok
  | commitFinish sup =>
    simp only [stepEv] at h
    split at h
    · cases h
    · cases h
      unfold commitCycleDone
      split
      · exact Or.inr (Or.inl rfl)
      · exact hok
  | pullFinish o =>
    simp only [stepEv] at h
    split at h
    · cases h
    · cases h
      exact Or.inr (Or.inl rfl)

/-- StateOk is preserved along every run. -/
theorem runFrom_stateOk :
    ∀ (evs : List Ev) (st s : DaemonState), StateOk st.sync →
      runFrom st evs = some s → StateOk s.sync := by
  intro evs
  induction evs with
  | nil =>
    intro st s hok h
    cases h
    exact hok
  | cons e evs ih =>
    intro st s hok h
    simp only [runFrom] at h
    cases hst : stepEv st e with
    | none => rw [hst] at h; cases h
    | some st2 =>
      rw [hst] at h
      exact ih st2 s (stepEv_stateOk hst hok) h

/-- A change event is always possible after init and runs onChange. -/
theorem stepEv_change {st : DaemonState} (t : Nat) (h : st.sync ≠ "initializing") :
    stepEv st (Ev.change t) = some (onChange t st) := by
  simp only [stepEv, if_neg h]

/-- onChange always leaves the state "pending". -/
theorem onChange_sync (t : Nat) (st : DaemonState) : (onChange t st).sync = "pending" := rfl

/-- After init, a run consisting only of change events is defined and is
the fold of onChange. -/
theorem runFrom_changes :
    ∀ (ts : List Nat) (st : DaemonState), st.sync ≠ "initializing" →
      runFrom st (ts.map Ev.change) = some (ts.foldl (fun s t => onChange t s) st) := by
  intro ts
  induction ts with
  | nil => intro st _; rfl
  | cons t ts ih =>
    intro st h
    rw [List.map_cons, List.foldl_cons]
    simp only [runFrom, stepEv_change t h]
    exact ih (onChange t st) (by rw [onChange_sync]; decide)

/-- Folding onChange from a state whose batchTimer variable references
the one armed timeout (id i, deadline t0 + interval, nextId = i + 1):
every event cancels the previous timeout and arms a fresh one, so at the
end exactly one timeout is armed, its deadline is the last event time
plus the interval, and the batchTimer variable references it. -/
theorem foldChanges_spec :
    ∀ (ts : List Nat) (st : DaemonState) (i t0 : Nat),
      st.batchTimer = some i →
      st.armed = [(i, t0 + BATCH_INTERVAL_MS)] →
      st.nextId = i + 1 →
      st.sync = "pending" →
      (ts.foldl (fun s t => onChange t s) st).sync = "pending" ∧
      (ts.foldl (fun s t => onChange t s) st).batchTimer = some (i + ts.length) ∧
      (ts.foldl (fun s t => onChange t s) st).armed
        = [(i + ts.length, ts.getLastD t0 + BATCH_INTERVAL_MS)] ∧
      (ts.foldl (fun s t => onChange t s) st).nextId = i + ts.length + 1 := by
  intro ts
  induction ts with
  | nil =>
    intro st i t0 hbt har hni hsy
    exact ⟨hsy, by simpa using hbt, by simpa using har, by simpa using hni⟩
  | cons t ts ih =>
    intro st i t0 hbt har hni hsy
    rw [List.foldl_cons]
    have h1 : (onChange t st).batchTimer = some (i + 1) := by
      simp [onChange, hni]
    have h2 : (onChange t st).armed = [(i + 1, t + BATCH_INTERVAL_MS)] := by
      simp only [onChange, clearBatchTimer, hbt, har, hni]
      simp
    have h3 : (onChange t st).nextId = (i + 1) + 1 := by
      simp [onChange, hni]
    have h4 : (onChange t st).sync = "pending" := rfl
    have := ih (onChange t st) (i + 1) t h1 h2 h3 h4
    rcases this with ⟨c1, c2, c3, c4⟩
    refine ⟨c1, ?_, ?_, ?_⟩
    · rw [c2, List.length_cons]
      congr 1
      omega
    · rw [c3, List.getLastD_cons, List.length_cons]
      congr 2
      omega
    · simp only [List.length_cons]
      omega

/-- getLast of a cons is getLastD of the tail with the head as default. -/
theorem getLast_cons_getLastD :
    ∀ (rest : List Nat) (t1 : Nat) (h : t1 :: rest ≠ []),
      (t1 :: rest).getLast h = rest.getLastD t1 := by
  intro rest
  induction rest with
  | nil => intro t1 h; rfl
  | cons r rs ih =>
    intro t1 h
    rw [List.getLastD_cons]
    exact ih r (by simp)

/-- C1 (counterexample): the daemon CAN issue a pull and a commit cycle
concurrently against the same tree: if a change event arrives while a
pull is in flight and the armed batch timeout expires before the pull
completes, overlapTrace reaches a state with a commit cycle and a pull
simultaneously in flight, refuting the second half of the claim. -/
theorem c1_counterexample_concurrent_cycles :
    run overlapTrace = some overlapState ∧
    0 < overlapState.commitsInFlight ∧ 0 < overlapState.pullsInFlight := by
  decide

/-- C1 (amended): the coordinator state itself is a single value, so it
is never "committing" and "pulling" simultaneously; the operational half
of the claim (no concurrent pull and commit) is refuted by the
counterexample. -/
theorem c1_state_mutual_exclusion (s : DaemonState) (h : s.sync = "committing") :
    s.sync ≠ "pulling" := by
  rw [h]
  decide

/-- C1 witness: the amended claim at the overlap state itself. -/
theorem c1_witness : overlapState.sync ≠ "pulling" :=
  c1_state_mutual_exclusion overlapState (by decide)

/-- C2 (confirmed): for every nonempty burst of change events each
arriving within one batch interval of the previous one, the run ends
"pending" with exactly one armed batch timeout, scheduled one batch
interval after the last event and referenced by the batchTimer variable:
each event cancelled and replaced the previous timeout, so exactly one
Commit/Push Cycle will be triggered, and an unbroken stream keeps moving
the deadline to lastEvent + BATCH_INTERVAL_MS. -/
theorem c2_debounce_coalesces (ts : List Nat) (h : ts ≠ [])
    (hw : List.Chain' (fun a b => a < b ∧ b < a + BATCH_INTERVAL_MS) ts) :
    (run (Ev.initDone :: ts.map Ev.change)).map
        (fun s => (s.sync, s.batchTimer, s.armed))
      = some ("pending", some (ts.length - 1),
          [(ts.length - 1, ts.getLast h + BATCH_INTERVAL_MS)]) := by
  cases ts with
  | nil => exact absurd rfl h
  | cons t1 rest =>
    have hstep : run (Ev.initDone :: (t1 :: rest).map Ev.change)
        = runFrom (onChange t1 (setState "idle" initialState)) (rest.map Ev.change) := rfl
    have h1 : runFrom (onChange t1 (setState "idle" initialState)) (rest.map Ev.change)
        = some (rest.foldl (fun s t => onChange t s)
            (onChange t1 (setState "idle" initialState))) :=
      runFrom_changes rest _ (by rw [onChange_sync]; decide)
    have hspec := foldChanges_spec rest (onChange t1 (setState "idle" initialState))
      0 t1 rfl rfl rfl rfl
    rcases hspec with ⟨s1, s2, s3, _⟩
    rw [hstep, h1, Option.map_some']
    rw [s1, s2, s3, getLast_cons_getLastD rest t1 h, List.length_cons]
    simp

/-- C2 witness: the burst 0, 1000, 2000 yields one timeout at 62000. -/
theorem c2_witness :
    (run (Ev.initDone :: ([0, 1000, 2000] : List Nat).map Ev.change)).map
        (fun s => (s.sync, s.batchTimer, s.armed))
      = some ("pending", some 2, [(2, 62000)]) := by
  have h3 : ([0, 1000, 2000] : List Nat) ≠ [] := by decide
  have := c2_debounce_coalesces [0, 1000, 2000] h3
    (by norm_num [List.chain'_cons, BATCH_INTERVAL_MS])
  rw [show ([0, 1000, 2000] : List Nat).getLast h3 = 2000 from rfl] at this
  simpa [BATCH_INTERVAL_MS] using this

/-- C3 (code bug): the completion paths of batchedCommit contradict the
claim.  First run: with superproject changes whose git commit fails, the
early return (source line 363) skips the finalize block and the daemon
remains in "committing" after the cycle has ended.  Second run: a change
event arrives mid-cycle and every git operation succeeds, yet the cycle
ends in "idle", not "pending", because batchedCommit assigns batchTimer
= null immediately before calling processDone (source lines 382-383),
defeating processDone's check (the mid-cycle timeout does remain armed,
so the changes are eventually committed by its own later expiry). -/
theorem c3_completion_divergence :
    (run stuckTrace = some stuckState ∧ stuckState.sync = "committing") ∧
    (run midCycleChangeTrace = some midCycleChangeEnd ∧
      midCycleChangeEnd.sync = "idle" ∧ midCycleChangeEnd.sync ≠ "pending") := by
  decide

/-- C4 (counterexample): the coordinator is idle, a tick fires, the
superproject pull fails, and the pull cycle completes — the state is
"idle", not "error" as the claim asserts. -/
theorem c4_counterexample_no_error_state :
    run pullFailTrace = some pullFailEnd ∧
    pullFailEnd.sync = "idle" ∧ pullFailEnd.sync ≠ "error" := by
  decide

/-- C4 (amended): a superproject pull failure is caught inside
pullUpdates and only logged, so the promise resolves, the .then handler
runs, and the coordinator lands back in "idle"; a subsequent change
event still transitions the state to "pending", so the failure never
blocks the commit path. -/
theorem c4_pull_failure_swallowed (o : PullOutcome) (h : o.superPullOk = false) :
    runPullUpdates o = Except.ok (PullLog.superPullFailed :: pullSubLoop o.subs) ∧
    run [Ev.initDone, Ev.pullTick, Ev.pullFinish o] = some pullFailEnd ∧
    run [Ev.initDone, Ev.pullTick, Ev.pullFinish o, Ev.change 0] =
      some (onChange 0 pullFailEnd) ∧
    (onChange 0 pullFailEnd).sync = "pending" := by
  refine ⟨?_, rfl, rfl, rfl⟩
  simp [runPullUpdates, h]

/-- C4 witness: the amended claim at the concrete failing pull. -/
theorem c4_witness :
    runPullUpdates superPullFailure
      = Except.ok (PullLog.superPullFailed :: pullSubLoop superPullFailure.subs) ∧
    run [Ev.initDone, Ev.pullTick, Ev.pullFinish superPullFailure] = some pullFailEnd ∧
    run [Ev.initDone, Ev.pullTick, Ev.pullFinish superPullFailure, Ev.change 0] =
      some (onChange 0 pullFailEnd) ∧
    (onChange 0 pullFailEnd).sync = "pending" :=
  c4_pull_failure_swallowed superPullFailure rfl

/-- C5 (counterexample): a change event arrives during an in-flight pull
(pullRaceTrace); on completion the coordinator is "idle", not "pending"
as the claim asserts — the final setState("idle") in maybePull's .then
handler overwrites the "pending" that processDone had just chosen. -/
theorem c5_counterexample_completion_not_pending :
    run pullRaceTrace = some pullRaceEnd ∧
    pullRaceEnd.sync = "idle" ∧ pullRaceEnd.sync ≠ "pending" := by
  decide

/-- C5 (amended): every pull completion sets the state to "idle",
whether or not a change event arrived during the pull; the concurrent
change is nevertheless not lost, because the completion touches neither
the batchTimer variable nor the armed timeout, whose later expiry starts
the commit cycle. -/
theorem c5_pull_completion_idle (o : PullOutcome) (st : DaemonState)
    (h : 0 < st.pullsInFlight) :
    stepEv st (Ev.pullFinish o) =
      some { st with sync := "idle", pullsInFlight := st.pullsInFlight - 1 } := by
  have h0 : ¬ st.pullsInFlight = 0 := Nat.pos_iff_ne_zero.mp h
  simp only [stepEv, if_neg h0]
  cases hb : st.batchTimer <;> simp [pullSettled, runPullUpdates, processDone, setState, hb]

/-- C5 witness: the amended claim at a concrete in-flight pull. -/
theorem c5_witness :
    stepEv pullingProbe (Ev.pullFinish pullAllOk) =
      some { pullingProbe with sync := "idle", pullsInFlight := pullingProbe.pullsInFlight - 1 } :=
  c5_pull_completion_idle pullAllOk pullingProbe (by decide)

/-- C6 (confirmed): in every state other than "idle" a periodic pull
tick runs maybePull's else branch only: it performs no pull (nothing new
in flight) and leaves the whole daemon state unchanged. -/
theorem c6_tick_noop_outside_idle (st : DaemonState) (h : st.sync ≠ "idle") :
    maybePull st = st := by
  unfold maybePull
  rw [if_neg h]

/-- C6 witness: a tick in the "pending" state changes nothing. -/
theorem c6_witness : maybePull pendingProbe = pendingProbe :=
  c6_tick_noop_outside_idle pendingProbe (by decide)

/-- C7 (counterexample): in the "error" state the next periodic tick
does NOT re-attempt the pull: maybePull's guard accepts only "idle", so
the tick leaves the state unchanged and starts no pull, refuting the
claim that the next tick retries. -/
theorem c7_counterexample_error_tick_skips :
    stepEv errorProbe Ev.pullTick = some errorProbe ∧
    errorProbe.pullsInFlight = 0 ∧ errorProbe.sync ≠ "pulling" := by
  decide

/-- C7 (amended): entering "error" suppresses automatic pulls at every
subsequent tick, not only until the next one; pulls resume only after
the coordinator reaches "idle" again, e.g. via a change event and a
completed commit cycle, after which a tick pulls (recoveryTrace). -/
theorem c7_error_suppresses_pulls :
    (∀ st : DaemonState, st.sync = "error" → maybePull st = st) ∧
    runFrom errorProbe recoveryTrace =
      some { sync := "pulling", batchTimer := none, armed := [], nextId := 1,
             commitsInFlight := 0, pullsInFlight := 1 } := by
  constructor
  · intro st h
    unfold maybePull
    rw [if_neg (by rw [h]; decide)]
  · decide

/-- C7 witness: the amended claim at the concrete error state. -/
theorem c7_witness : maybePull errorProbe = errorProbe :=
  c7_error_suppresses_pulls.1 errorProbe rfl

/-- Helper for C8: the submodule loop distributes over concatenation. -/
theorem commitSubmodules_append (a b : List SubOutcome) :
    commitSubmodules (a ++ b) = commitSubmodules a ++ commitSubmodules b := by
  induction a with
  | nil => rfl
  | cons o rest ih => simp [commitSubmodules, ih]

/-- C8 (confirmed): a submodule whose commit fails contributes exactly a
logged commitFailed action, and every submodule after it is processed
exactly as it would have been without the failure; the superproject step
runs regardless of any submodule outcome (it depends only on the
superproject's own oracle), so failures never propagate across tree
boundaries. -/
theorem c8_commit_failure_isolated (pre post : List SubOutcome) (bad : SubOutcome)
    (sup : SuperOutcome) (hex : bad.pathExists = true) (hf : 0 < bad.statusFiles)
    (hc : bad.commitOk = false) :
    (runBatchedCommit (pre ++ bad :: post) sup).subActions =
      commitSubmodules pre ++ SubAction.commitFailed :: commitSubmodules post ∧
    (runBatchedCommit (pre ++ bad :: post) sup).superAction = (superStep sup).1 := by
  have hf0 : ¬ bad.statusFiles = 0 := Nat.pos_iff_ne_zero.mp hf
  have hbad : processSub bad = SubAction.commitFailed := by
    simp [processSub, hex, hc, hf0]
  refine ⟨?_, rfl⟩
  show commitSubmodules (pre ++ bad :: post) = _
  rw [commitSubmodules_append]
  simp [commitSubmodules, hbad]

/-- C8 witness: one healthy submodule before and one after a submodule
whose commit fails. -/
theorem c8_witness :
    (runBatchedCommit ([goodSub] ++ badSub :: [goodSub]) superAllOk).subActions =
      commitSubmodules [goodSub] ++ SubAction.commitFailed :: commitSubmodules [goodSub] ∧
    (runBatchedCommit ([goodSub] ++ badSub :: [goodSub]) superAllOk).superAction =
      (superStep superAllOk).1 :=
  c8_commit_failure_isolated [goodSub] [goodSub] badSub superAllOk rfl (by decide) rfl

/-- C9 (counterexample): between module load and init() the
coordinator's state is the constructor value "initializing", a seventh
value outside the six declared members, so the claim that only the six
ever occur during the daemon's lifetime fails at the initial state. -/
theorem c9_counterexample_initializing_state :
    run [] = some initialState ∧
    ¬ (initialState.sync = "idle" ∨ initialState.sync = "pending" ∨
       initialState.sync = "committing" ∨ initialState.sync = "pulling" ∨
       initialState.sync = "blocked" ∨ initialState.sync = "error") := by
  decide

/-- C9 (amended): at every reachable instant the coordinator's state is
one of the six declared members or the pre-init value "initializing";
among the declared members "blocked" never actually occurs. -/
theorem c9_sync_value_range (evs : List Ev) (s : DaemonState)
    (h : run evs = some s) : StateOk s.sync :=
  runFrom_stateOk evs initialState s (Or.inl rfl) h

/-- C9 witness: the amended claim at the empty run. -/
theorem c9_witness : StateOk initialState.sync :=
  c9_sync_value_range [] initialState rfl

/-- C10 (confirmed): no reachable daemon state has currentState
"blocked": no operation of the daemon ever assigns that declared
value. -/
theorem c10_blocked_never_assigned (evs : List Ev) (s : DaemonState)
    (h : run evs = some s) : s.sync ≠ "blocked" := by
  rcases runFrom_stateOk evs initialState s (Or.inl rfl) h with h1|h1|h1|h1|h1|h1 <;>
    rw [h1] <;> decide

/-- C10 witness: the post-init state is not "blocked". -/
theorem c10_witness : (setState "idle" initialState).sync ≠ "blocked" :=
  c10_blocked_never_assigned [Ev.initDone] (setState "idle" initialState) rfl

end GitAutoCommit
